import Mathlib

/-!
Shallow embedding of the render orchestrator of `src/app/ui/detail/PhotoLayer.tsx`
(the `PhotoLayer` React component) and the narrow interfaces it consumes.

The orchestrator's own logic (`updateCanvas`, `setLoadingState`, `onTextureFetched`,
`componentWillUnmount`, the deferred-hide timer callback) is translated directly from
the source.  The collaborators that the repository snapshot does not contain
(`PhotoCanvas`, `TextureCache`, `DetailMode`, `CameraMetrics`) are modelled from the
spec's interface descriptions; each such definition carries a doc comment saying so.

Side effects (calls on the canvas, observer notifications, timer operations) are
recorded in an explicit trace of `Effect`s, in the order the source performs them.
JavaScript reference inequality (`!==`) on props values is modelled as structural
inequality; `setTimeout`/`clearTimeout` are modelled by an explicit `Scheduler`
holding the list of pending timer ids.
-/

namespace Picturama

/-- Modelled from the spec: an opaque 4x4 matrix value; the orchestrator only passes
matrices through, so their internal structure is irrelevant and an opaque tag suffices. -/
abbrev Mat4 := Nat

/-- A pixel size, as in `common/util/GeometryTypes`' `Size` (width/height in px). -/
structure Size where
  width : Int
  height : Int
deriving DecidableEq

/-- Modelled from the spec: a rectangle (crop / clip rect). -/
structure Rect where
  x : Int
  y : Int
  width : Int
  height : Int
deriving DecidableEq

/-- A decoded GPU-resident texture with its pixel dimensions, as in
`app/renderer/WebGLCanvas`' `Texture` (only `width`/`height` are consumed here). -/
structure Texture where
  width : Int
  height : Int
deriving DecidableEq

/-- Modelled from the spec: the `TextureError` variants of section 7
(not-found, decode-failure, unsupported-format, upload-failure). -/
inductive TextureError where
  | notFound
  | decodeFailure
  | unsupportedFormat
  | uploadFailure
deriving DecidableEq

/-- The loading state of the photo layer:
`type PhotoLayerLoadingState = 'loading' | 'done' | TextureError`. -/
inductive PhotoLayerLoadingState where
  | loading
  | done
  | error (e : TextureError)
deriving DecidableEq

/-- Modelled from the spec: the detail-view render mode; the orchestrator only
distinguishes whether the mode is `view`. -/
inductive DetailMode where
  | view
  | crop
deriving DecidableEq

/-- Modelled from the spec: an immutable camera snapshot
`{canvasSize, projectionMatrix, cameraMatrix, cropRect?}`. -/
structure CameraMetrics where
  canvasSize : Size
  projectionMatrix : Mat4
  cameraMatrix : Mat4
  cropRect : Option Rect
deriving DecidableEq

/-- The props consumed by `PhotoLayer` (the callback props are modelled as trace
events rather than fields). -/
structure Props where
  mode : DetailMode
  bodySize : Size
  imagePath : String
  imagePathPrev : Option String
  imagePathNext : Option String
  cameraMetrics : Option CameraMetrics
deriving DecidableEq

/-- The previous props snapshot handed to `updateCanvas`.  It is a
`Partial<Props>`: on mount the component calls `updateCanvas({})`, so every field
may be absent (`none` models JavaScript `undefined`).  Only the fields that
`updateCanvas` actually compares are kept. -/
structure PrevProps where
  mode : Option DetailMode
  bodySize : Option Size
  cameraMetrics : Option (Option CameraMetrics)
deriving DecidableEq

/-- Modelled from the spec: the queryable state of the Texture Cache, i.e. which
keys currently resolve to a Ready texture and which carry a sticky error.  The
cache's internal fetch/eviction machinery is irrelevant to the orchestrator
claims; `getTexture`/`getTextureError` are the non-blocking queries of section 4.1. -/
structure TextureCache where
  textures : List (String × Texture)
  errors : List (String × TextureError)
deriving DecidableEq

/-- Non-blocking query: the resident texture if Ready, else `none`. -/
def TextureCache.getTexture (tc : TextureCache) (key : String) : Option Texture :=
  (tc.textures.find? (fun e => e.1 == key)).map (fun e => e.2)

/-- Non-blocking query: the sticky failure for `key`, else `none`. -/
def TextureCache.getTextureError (tc : TextureCache) (key : String) : Option TextureError :=
  (tc.errors.find? (fun e => e.1 == key)).map (fun e => e.2)

/-- Modelled from the spec: the state of the `PhotoCanvas` as visible through the
narrow interface of section 6 (base texture, clip rect, size, matrices, redraw
trigger, and the visual element's display/layout styles). -/
structure PhotoCanvas where
  displayVisible : Bool
  elemWidth : Option Int
  elemHeight : Option Int
  baseTexture : Option Texture
  clipRect : Option Rect
  size : Option Size
  projectionMatrix : Option Mat4
  cameraMatrix : Option Mat4
  updateCount : Nat
deriving DecidableEq

/-- Modelled from the spec: `isValid()` reports whether the canvas "has both
metrics and a bound, renderable state". -/
def PhotoCanvas.isValid (c : PhotoCanvas) : Bool :=
  c.baseTexture.isSome && c.size.isSome && c.projectionMatrix.isSome && c.cameraMatrix.isSome

/-- One observable side effect of the orchestrator, in the order performed. -/
inductive Effect where
  | declareInterest (keys : List (Option String))
  | hideElement
  | showElement
  | notifyLoadingState (s : PhotoLayerLoadingState)
  | notifyTextureChange (width height : Int)
  | setBaseTexture (t : Option Texture)
  | setClipRect (r : Option Rect)
  | setSize (s : Size)
  | setProjectionMatrix (m : Mat4)
  | setCameraMatrix (m : Mat4)
  | redraw
  | resizeElement (width height : Int)
  | clearDeferredHide (id : Nat)
  | startDeferredHide (id : Nat) (delayMs : Nat)
  | detachElement
deriving DecidableEq

/-- The timer runtime: the ids of pending one-shot timers and the next fresh id.
`setTimeout` registers a fresh pending timer; `clearTimeout` removes one. -/
structure Scheduler where
  pending : List Nat
  nextId : Nat
deriving DecidableEq

/-- Register a new one-shot timer; returns its id. -/
def Scheduler.setTimeout (s : Scheduler) : Nat × Scheduler :=
  (s.nextId, { pending := s.pending ++ [s.nextId], nextId := s.nextId + 1 })

/-- Cancel a timer; removing an id that is not pending is a no-op. -/
def Scheduler.clearTimeout (s : Scheduler) (id : Nat) : Scheduler :=
  { s with pending := s.pending.filter (fun x => x ≠ id) }

/-- The mutable fields of the `PhotoLayer` component (source lines 38-44). -/
structure PhotoLayerState where
  canvas : Option PhotoCanvas
  textureCache : Option TextureCache
  canvasImagePath : Option String
  deferredHideCanvasTimeout : Option Nat
  prevLoadingState : Option PhotoLayerLoadingState
deriving DecidableEq

/-- Core of `setLoadingState` (source lines 82-87), acting on the
`prevLoadingState` field: notify the observer only when the new state differs
from the last notified one. -/
def setLoadingStateField (prev : Option PhotoLayerLoadingState)
    (loadingState : PhotoLayerLoadingState) :
    Option PhotoLayerLoadingState × List Effect :=
  if some loadingState ≠ prev then
    (some loadingState, [Effect.notifyLoadingState loadingState])
  else
    (prev, [])

/-- `PhotoLayer.setLoadingState` (source lines 82-87). -/
def setLoadingState (st : PhotoLayerState) (loadingState : PhotoLayerLoadingState) :
    PhotoLayerState × List Effect :=
  let r := setLoadingStateField st.prevLoadingState loadingState
  ({ st with prevLoadingState := r.1 }, r.2)

/-- Result of the texture (re)bind block. -/
structure BindResult where
  canvas : PhotoCanvas
  canvasImagePath : Option String
  trace : List Effect
  changed : Bool
deriving DecidableEq

/-- Source lines 113-121: when the applied image path differs from the requested
one, query the cache, bind or unbind the base texture, record the new applied
path (`texture ? props.imagePath : null`), notify the texture-size observer when
a texture was bound, and mark the canvas changed. -/
def bindTextureStep (props : Props) (tc : TextureCache) (canvas : PhotoCanvas)
    (canvasImagePath : Option String) : BindResult :=
  if canvasImagePath ≠ some props.imagePath then
    match tc.getTexture props.imagePath with
    | some t =>
        { canvas := { canvas with baseTexture := some t }
          canvasImagePath := some props.imagePath
          trace := [Effect.setBaseTexture (some t),
                    Effect.notifyTextureChange t.width t.height]
          changed := true }
    | none =>
        { canvas := { canvas with baseTexture := none }
          canvasImagePath := none
          trace := [Effect.setBaseTexture none]
          changed := true }
  else
    { canvas := canvas, canvasImagePath := canvasImagePath, trace := [], changed := false }

/-- Result of a canvas-mutating block that can mark the canvas changed. -/
structure StepResult where
  canvas : PhotoCanvas
  trace : List Effect
  changed : Bool
deriving DecidableEq

/-- Source lines 123-127: when the body size differs from the previous props,
resize the canvas element's pixel dimensions (a pure layout mutation). -/
def bodyResizeStep (props : Props) (prevProps : PrevProps) (canvas : PhotoCanvas) :
    PhotoCanvas × List Effect :=
  if some props.bodySize ≠ prevProps.bodySize then
    ({ canvas with elemWidth := some props.bodySize.width
                   elemHeight := some props.bodySize.height },
     [Effect.resizeElement props.bodySize.width props.bodySize.height])
  else
    (canvas, [])

/-- The clip rect pushed at line 130:
`(props.mode === 'view' && props.cameraMetrics) ? props.cameraMetrics.cropRect : null`. -/
def clipRectValue (props : Props) : Option Rect :=
  match props.cameraMetrics with
  | some cm => if props.mode = DetailMode.view then cm.cropRect else none
  | none => none

/-- Source lines 129-132: when mode or camera metrics differ from the previous
props, push the clip rect and mark the canvas changed. -/
def clipRectStep (props : Props) (prevProps : PrevProps) (canvas : PhotoCanvas) :
    StepResult :=
  if some props.mode ≠ prevProps.mode ∨ some props.cameraMetrics ≠ prevProps.cameraMetrics then
    { canvas := { canvas with clipRect := clipRectValue props }
      trace := [Effect.setClipRect (clipRectValue props)]
      changed := true }
  else
    { canvas := canvas, trace := [], changed := false }

/-- Source lines 134-142: when camera metrics differ from the previous props,
push size, projection matrix and camera matrix if metrics are present; the
canvas counts as changed either way. -/
def cameraMetricsStep (props : Props) (prevProps : PrevProps) (canvas : PhotoCanvas) :
    StepResult :=
  if some props.cameraMetrics ≠ prevProps.cameraMetrics then
    match props.cameraMetrics with
    | some cm =>
        { canvas := { canvas with size := some cm.canvasSize
                                  projectionMatrix := some cm.projectionMatrix
                                  cameraMatrix := some cm.cameraMatrix }
          trace := [Effect.setSize cm.canvasSize,
                    Effect.setProjectionMatrix cm.projectionMatrix,
                    Effect.setCameraMatrix cm.cameraMatrix]
          changed := true }
    | none => { canvas := canvas, trace := [], changed := true }
  else
    { canvas := canvas, trace := [], changed := false }

/-- Result of the visibility / deferred-hide block. -/
structure VisResult where
  canvas : PhotoCanvas
  timer : Option Nat
  prevLoadingState : Option PhotoLayerLoadingState
  sched : Scheduler
  trace : List Effect
deriving DecidableEq

/-- Source lines 144-162: if the canvas changed, either (metrics present and
canvas valid) cancel a pending deferred-hide timer, redraw, show the element and
transition to `done`; or, when no deferred-hide timer is pending, start a
one-shot 100ms timer. -/
def visibilityStep (props : Props) (canvas : PhotoCanvas) (changed : Bool)
    (timer : Option Nat) (prevLS : Option PhotoLayerLoadingState) (sched : Scheduler) :
    VisResult :=
  if changed then
    if props.cameraMetrics.isSome && canvas.isValid then
      let cleared : Scheduler × List Effect :=
        match timer with
        | some id => (sched.clearTimeout id, [Effect.clearDeferredHide id])
        | none => (sched, [])
      let canvas := { canvas with updateCount := canvas.updateCount + 1, displayVisible := true }
      let ls := setLoadingStateField prevLS PhotoLayerLoadingState.done
      { canvas := canvas, timer := none, prevLoadingState := ls.1, sched := cleared.1
        trace := cleared.2 ++ [Effect.redraw, Effect.showElement] ++ ls.2 }
    else if timer.isNone then
      let t := sched.setTimeout
      { canvas := canvas, timer := some t.1, prevLoadingState := prevLS, sched := t.2
        trace := [Effect.startDeferredHide t.1 100] }
    else
      { canvas := canvas, timer := timer, prevLoadingState := prevLS, sched := sched, trace := [] }
  else
    { canvas := canvas, timer := timer, prevLoadingState := prevLS, sched := sched, trace := [] }

/-- Result of a whole orchestrator entry point. -/
structure UpdateResult where
  state : PhotoLayerState
  sched : Scheduler
  trace : List Effect
deriving DecidableEq

/-- `PhotoLayer.updateCanvas` (source lines 96-163).  Returns immediately when
the canvas or the texture cache is absent; declares interest as
`[props.imagePath, props.imagePathNext, props.imagePathPrev]`; takes the error
branch when the cache holds a sticky error for the current image; otherwise runs
the bind / resize / clip / camera blocks and the visibility block. -/
def updateCanvas (props : Props) (prevProps : PrevProps) (st : PhotoLayerState)
    (sched : Scheduler) : UpdateResult :=
  match st.canvas, st.textureCache with
  | some canvas, some tc =>
    let declEff := Effect.declareInterest
      [some props.imagePath, props.imagePathNext, props.imagePathPrev]
    match tc.getTextureError props.imagePath with
    | some err =>
        let canvas := { canvas with displayVisible := false }
        let ls := setLoadingStateField st.prevLoadingState (PhotoLayerLoadingState.error err)
        { state := { st with canvas := some canvas, prevLoadingState := ls.1 }
          sched := sched
          trace := declEff :: Effect.hideElement :: ls.2 }
    | none =>
        let b := bindTextureStep props tc canvas st.canvasImagePath
        let r := bodyResizeStep props prevProps b.canvas
        let c := clipRectStep props prevProps r.1
        let m := cameraMetricsStep props prevProps c.canvas
        let changed := b.changed || c.changed || m.changed
        let v := visibilityStep props m.canvas changed
          st.deferredHideCanvasTimeout st.prevLoadingState sched
        { state := { st with canvas := some v.canvas
                             canvasImagePath := b.canvasImagePath
                             deferredHideCanvasTimeout := v.timer
                             prevLoadingState := v.prevLoadingState }
          sched := v.sched
          trace := declEff :: (b.trace ++ r.2 ++ c.trace ++ m.trace ++ v.trace) }
  | _, _ => { state := st, sched := sched, trace := [] }

/-- The canvas value after the bind / resize / clip / camera blocks, i.e. the
local `canvas` at source line 144 when the error branch was not taken. -/
def stepsCanvas (props : Props) (prevProps : PrevProps) (tc : TextureCache)
    (canvas : PhotoCanvas) (canvasImagePath : Option String) : PhotoCanvas :=
  let b := bindTextureStep props tc canvas canvasImagePath
  let r := bodyResizeStep props prevProps b.canvas
  let c := clipRectStep props prevProps r.1
  (cameraMetricsStep props prevProps c.canvas).canvas

/-- The accumulated `canvasChanged` flag at source line 144 when the error
branch was not taken. -/
def updateChanged (props : Props) (prevProps : PrevProps) (tc : TextureCache)
    (canvas : PhotoCanvas) (canvasImagePath : Option String) : Bool :=
  let b := bindTextureStep props tc canvas canvasImagePath
  let r := bodyResizeStep props prevProps b.canvas
  let c := clipRectStep props prevProps r.1
  let m := cameraMetricsStep props prevProps c.canvas
  b.changed || c.changed || m.changed

/-- A full props snapshot used as the previous props, modelling
`this.updateCanvas(this.props)` where previous and current props coincide. -/
def prevOfProps (p : Props) : PrevProps :=
  { mode := some p.mode, bodySize := some p.bodySize, cameraMetrics := some p.cameraMetrics }

/-- `PhotoLayer.onTextureFetched` (source lines 89-94): when the completed key is
the current image path and a texture was delivered, notify the texture-size
observer; in every case re-run `updateCanvas` with the current props as both
current and previous props. -/
def onTextureFetched (props : Props) (st : PhotoLayerState) (sched : Scheduler)
    (imagePath : String) (texture : Option Texture) : UpdateResult :=
  let notifyEff : List Effect :=
    if imagePath = props.imagePath then
      match texture with
      | some t => [Effect.notifyTextureChange t.width t.height]
      | none => []
    else []
  let u := updateCanvas props (prevOfProps props) st sched
  { state := u.state, sched := u.sched, trace := notifyEff ++ u.trace }

/-- `PhotoLayer.componentWillUnmount` (source lines 70-76): detach the canvas
element and clear the canvas reference. -/
def componentWillUnmount (st : PhotoLayerState) : PhotoLayerState × List Effect :=
  match st.canvas with
  | some _ => ({ st with canvas := none }, [Effect.detachElement])
  | none => (st, [])

/-- The deferred-hide timer callback (source lines 156-160), as invoked by the
runtime when pending timer `id` fires: the runtime removes the timer from the
pending set, the callback clears the handle field, hides the canvas element and
transitions the loading state to `loading`. -/
def fireDeferredHide (st : PhotoLayerState) (sched : Scheduler) (id : Nat) : UpdateResult :=
  let sched := { sched with pending := sched.pending.filter (fun x => x ≠ id) }
  let canvasHidden : Option PhotoCanvas :=
    match st.canvas with
    | some c => some { c with displayVisible := false }
    | none => none
  let ls := setLoadingStateField st.prevLoadingState PhotoLayerLoadingState.loading
  { state := { st with canvas := canvasHidden
                       deferredHideCanvasTimeout := none
                       prevLoadingState := ls.1 }
    sched := sched
    trace := Effect.hideElement :: ls.2 }

/-- The interest list as the spec sentence words it: the ordered list
`[imagePathPrev, imagePath, imagePathNext]` with null entries filtered out. -/
def specInterestKeys (props : Props) : List String :=
  [props.imagePathPrev, some props.imagePath, props.imagePathNext].filterMap id

/-! Concrete fixtures used by counterexamples and witnesses. -/

def size0 : Size := ⟨640, 480⟩

def size1 : Size := ⟨800, 600⟩

def rect0 : Rect := ⟨0, 0, 10, 10⟩

def cm0 : CameraMetrics := ⟨size0, 1, 2, some rect0⟩

def tex0 : Texture := ⟨30, 20⟩

def canvas0 : PhotoCanvas := ⟨false, none, none, none, none, none, none, none, 0⟩

def tcEmpty : TextureCache := ⟨[], []⟩

def tcErr : TextureCache := ⟨[], [("b", TextureError.decodeFailure)]⟩

def tcTex : TextureCache := ⟨[("b", tex0)], []⟩

def props0 : Props := ⟨DetailMode.view, size0, "b", some "a", some "c", some cm0⟩

def propsC1 : Props := ⟨DetailMode.view, size0, "b", some "a", none, some cm0⟩

def prevNone : PrevProps := ⟨none, none, none⟩

def sched0 : Scheduler := ⟨[], 0⟩

def st0 : PhotoLayerState := ⟨some canvas0, some tcEmpty, none, none, none⟩

def stErr : PhotoLayerState := ⟨some canvas0, some tcErr, none, none, none⟩

def stErrTimer : PhotoLayerState := ⟨some canvas0, some tcErr, none, some 7, none⟩

def schedTimer : Scheduler := ⟨[7], 8⟩

def stBind : PhotoLayerState := ⟨some canvas0, some tcTex, none, none, none⟩

def stSame : PhotoLayerState := ⟨some canvas0, some tcEmpty, some "b", none, none⟩

def prevC8 : PrevProps := ⟨some DetailMode.view, some size1, some (some cm0)⟩

def stTimer : PhotoLayerState := ⟨some canvas0, some tcEmpty, some "b", some 7, none⟩

/-! Helper lemmas. -/

lemma setLoadingStateField_fst (p : Option PhotoLayerLoadingState)
    (ls : PhotoLayerLoadingState) : (setLoadingStateField p ls).1 = some ls := by
  unfold setLoadingStateField
  split
  · rfl
  · rename_i h
    push_neg at h
    exact h.symm

lemma mem_setLoadingStateField_trace {p : Option PhotoLayerLoadingState}
    {ls : PhotoLayerLoadingState} {e : Effect} (h : e ∈ (setLoadingStateField p ls).2) :
    e = Effect.notifyLoadingState ls := by
  unfold setLoadingStateField at h
  split at h <;> simp_all

/-- C1 as stated fails on the code: at a concrete update with
`imagePathPrev = "a"`, `imagePath = "b"`, `imagePathNext = null`, the first
per-update effect declares interest as `[some "b", none, some "a"]`, not as the
null-filtered list `[prev, current, next] = ["a", "b"]` the claim states. -/
theorem C1_counterexample :
    (updateCanvas propsC1 prevNone st0 sched0).trace.head? ≠
      some (Effect.declareInterest ((specInterestKeys propsC1).map some)) := by
  decide

/-- C1 (amended): on every update event with a mounted canvas and texture cache,
the orchestrator declares interest to the Texture Cache as the ordered list
`[imagePath, imagePathNext, imagePathPrev]`, null entries passed through
unfiltered, before any other per-update step (it is the first effect). -/
theorem C1_interest_declared_first (props : Props) (prevProps : PrevProps)
    (st : PhotoLayerState) (sched : Scheduler)
    (hc : st.canvas.isSome = true) (ht : st.textureCache.isSome = true) :
    (updateCanvas props prevProps st sched).trace.head? =
      some (Effect.declareInterest
        [some props.imagePath, props.imagePathNext, props.imagePathPrev]) := by
  cases hcv : st.canvas with
  | none => rw [hcv] at hc; exact absurd hc (by simp)
  | some canvas =>
    cases htc : st.textureCache with
    | none => rw [htc] at ht; exact absurd ht (by simp)
    | some tc =>
      simp only [updateCanvas, hcv, htc]
      cases herr : tc.getTextureError props.imagePath <;> simp

theorem C1_interest_declared_first_witness :
    st0.canvas.isSome = true ∧ st0.textureCache.isSome = true ∧
    (updateCanvas props0 prevNone st0 sched0).trace.head? =
      some (Effect.declareInterest [some "b", some "c", some "a"]) :=
  ⟨rfl, rfl, C1_interest_declared_first props0 prevNone st0 sched0 rfl rfl⟩

/-- C6: loading-state notifications are deduplicated: a call to
`setLoadingState` notifies exactly when the new state differs from the last
notified one, setting the same state twice in a row yields no second
notification, and the first state ever set (last notified state still `null`)
is always notified. -/
theorem C6_loading_state_dedup (st : PhotoLayerState) (ls : PhotoLayerLoadingState) :
    ((setLoadingState st ls).2 =
      if some ls ≠ st.prevLoadingState then [Effect.notifyLoadingState ls] else [])
    ∧ (setLoadingState (setLoadingState st ls).1 ls).2 = []
    ∧ (st.prevLoadingState = none →
        (setLoadingState st ls).2 = [Effect.notifyLoadingState ls]) := by
  refine ⟨?_, ?_, ?_⟩
  · simp only [setLoadingState, setLoadingStateField]
    split <;> rfl
  · simp only [setLoadingState]
    rw [setLoadingStateField_fst]
    simp [setLoadingStateField]
  · intro h
    simp [setLoadingState, setLoadingStateField, h]

theorem C6_loading_state_dedup_witness :
    st0.prevLoadingState = none ∧
    (setLoadingState st0 PhotoLayerLoadingState.done).2 =
      [Effect.notifyLoadingState PhotoLayerLoadingState.done] :=
  ⟨rfl, (C6_loading_state_dedup st0 PhotoLayerLoadingState.done).2.2 rfl⟩

/-- The whole result of an update that takes the error branch. -/
lemma updateCanvas_error_eq {props : Props} {prevProps : PrevProps}
    {st : PhotoLayerState} {sched : Scheduler} {canvas : PhotoCanvas}
    {tc : TextureCache} {err : TextureError}
    (hc : st.canvas = some canvas) (ht : st.textureCache = some tc)
    (he : tc.getTextureError props.imagePath = some err) :
    updateCanvas props prevProps st sched =
      { state := { st with canvas := some { canvas with displayVisible := false }
                           prevLoadingState := some (PhotoLayerLoadingState.error err) }
        sched := sched
        trace := Effect.declareInterest
            [some props.imagePath, props.imagePathNext, props.imagePathPrev]
          :: Effect.hideElement
          :: (setLoadingStateField st.prevLoadingState (PhotoLayerLoadingState.error err)).2 } := by
  simp only [updateCanvas, hc, ht, he, setLoadingStateField_fst]

/-- Every effect of an error-branch update is the interest declaration, the
hide, or the loading-state notification. -/
lemma mem_updateCanvas_error_trace {props : Props} {prevProps : PrevProps}
    {st : PhotoLayerState} {sched : Scheduler} {canvas : PhotoCanvas}
    {tc : TextureCache} {err : TextureError} {e : Effect}
    (hc : st.canvas = some canvas) (ht : st.textureCache = some tc)
    (he : tc.getTextureError props.imagePath = some err)
    (hmem : e ∈ (updateCanvas props prevProps st sched).trace) :
    e = Effect.declareInterest
        [some props.imagePath, props.imagePathNext, props.imagePathPrev]
    ∨ e = Effect.hideElement
    ∨ e = Effect.notifyLoadingState (PhotoLayerLoadingState.error err) := by
  rw [updateCanvas_error_eq hc ht he] at hmem
  simp only [List.mem_cons] at hmem
  rcases hmem with h | h | h
  · exact Or.inl h
  · exact Or.inr (Or.inl h)
  · exact Or.inr (Or.inr (mem_setLoadingStateField_trace h))

/-- C2: when `getTextureError(imagePath)` is set, the update hides the canvas
element, transitions the loading state to that error, leaves the scheduler
untouched and performs no other canvas mutation in that update — no texture
bind, no transform push, no redraw — regardless of the camera metrics. -/
theorem C2_error_wins (props : Props) (prevProps : PrevProps) (st : PhotoLayerState)
    (sched : Scheduler) (canvas : PhotoCanvas) (tc : TextureCache) (err : TextureError)
    (hc : st.canvas = some canvas) (ht : st.textureCache = some tc)
    (he : tc.getTextureError props.imagePath = some err) :
    updateCanvas props prevProps st sched =
      { state := { st with canvas := some { canvas with displayVisible := false }
                           prevLoadingState := some (PhotoLayerLoadingState.error err) }
        sched := sched
        trace := Effect.declareInterest
            [some props.imagePath, props.imagePathNext, props.imagePathPrev]
          :: Effect.hideElement
          :: (setLoadingStateField st.prevLoadingState (PhotoLayerLoadingState.error err)).2 }
    ∧ (∀ t, Effect.setBaseTexture t ∉ (updateCanvas props prevProps st sched).trace)
    ∧ Effect.redraw ∉ (updateCanvas props prevProps st sched).trace
    ∧ (∀ s, Effect.setSize s ∉ (updateCanvas props prevProps st sched).trace)
    ∧ (∀ m, Effect.setProjectionMatrix m ∉ (updateCanvas props prevProps st sched).trace)
    ∧ (∀ m, Effect.setCameraMatrix m ∉ (updateCanvas props prevProps st sched).trace) := by
  refine ⟨updateCanvas_error_eq hc ht he, ?_, ?_, ?_, ?_, ?_⟩
  · intro t hmem
    rcases mem_updateCanvas_error_trace hc ht he hmem with h | h | h <;> simp at h
  · intro hmem
    rcases mem_updateCanvas_error_trace hc ht he hmem with h | h | h <;> simp at h
  · intro s hmem
    rcases mem_updateCanvas_error_trace hc ht he hmem with h | h | h <;> simp at h
  · intro m hmem
    rcases mem_updateCanvas_error_trace hc ht he hmem with h | h | h <;> simp at h
  · intro m hmem
    rcases mem_updateCanvas_error_trace hc ht he hmem with h | h | h <;> simp at h

theorem C2_error_wins_witness :
    tcErr.getTextureError "b" = some TextureError.decodeFailure ∧
    (updateCanvas props0 prevNone stErr sched0).state.prevLoadingState =
      some (PhotoLayerLoadingState.error TextureError.decodeFailure) ∧
    (updateCanvas props0 prevNone stErr sched0).state.canvas =
      some { canvas0 with displayVisible := false } ∧
    Effect.redraw ∉ (updateCanvas props0 prevNone stErr sched0).trace := by
  have h := C2_error_wins props0 prevNone stErr sched0 canvas0 tcErr
    TextureError.decodeFailure rfl rfl rfl
  exact ⟨rfl, by rw [h.1], by rw [h.1], h.2.2.1⟩

/-- C10: an update that takes the error branch leaves a pending deferred-hide
timer pending and the scheduler unchanged; when that timer later fires, it
transitions the loading state from the error state to `loading` (notifying the
observer) without any new input arriving. -/
theorem C10_error_branch_keeps_timer (props : Props) (prevProps : PrevProps)
    (st : PhotoLayerState) (sched : Scheduler) (canvas : PhotoCanvas)
    (tc : TextureCache) (err : TextureError) (id : Nat)
    (hc : st.canvas = some canvas) (ht : st.textureCache = some tc)
    (he : tc.getTextureError props.imagePath = some err)
    (hid : st.deferredHideCanvasTimeout = some id) :
    (updateCanvas props prevProps st sched).state.deferredHideCanvasTimeout = some id
    ∧ (updateCanvas props prevProps st sched).sched = sched
    ∧ (updateCanvas props prevProps st sched).state.prevLoadingState =
        some (PhotoLayerLoadingState.error err)
    ∧ (fireDeferredHide (updateCanvas props prevProps st sched).state
        (updateCanvas props prevProps st sched).sched id).state.deferredHideCanvasTimeout = none
    ∧ (fireDeferredHide (updateCanvas props prevProps st sched).state
        (updateCanvas props prevProps st sched).sched id).state.prevLoadingState =
        some PhotoLayerLoadingState.loading
    ∧ Effect.notifyLoadingState PhotoLayerLoadingState.loading ∈
        (fireDeferredHide (updateCanvas props prevProps st sched).state
          (updateCanvas props prevProps st sched).sched id).trace := by
  rw [updateCanvas_error_eq hc ht he]
  refine ⟨hid, rfl, rfl, rfl, ?_, ?_⟩
  · simp [fireDeferredHide, setLoadingStateField_fst]
  · simp [fireDeferredHide, setLoadingStateField]

/-- The whole result of an update that takes the no-error branch, with the
four canvas-mutating blocks chained. -/
lemma updateCanvas_ok_eq {props : Props} {prevProps : PrevProps}
    {st : PhotoLayerState} {sched : Scheduler} {canvas : PhotoCanvas} {tc : TextureCache}
    (hc : st.canvas = some canvas) (ht : st.textureCache = some tc)
    (he : tc.getTextureError props.imagePath = none) :
    updateCanvas props prevProps st sched =
      (let b := bindTextureStep props tc canvas st.canvasImagePath
       let r := bodyResizeStep props prevProps b.canvas
       let c := clipRectStep props prevProps r.1
       let m := cameraMetricsStep props prevProps c.canvas
       let changed := b.changed || c.changed || m.changed
       let v := visibilityStep props m.canvas changed
         st.deferredHideCanvasTimeout st.prevLoadingState sched
       { state := { st with canvas := some v.canvas
                            canvasImagePath := b.canvasImagePath
                            deferredHideCanvasTimeout := v.timer
                            prevLoadingState := v.prevLoadingState }
         sched := v.sched
         trace := Effect.declareInterest
             [some props.imagePath, props.imagePathNext, props.imagePathPrev]
           :: (b.trace ++ r.2 ++ c.trace ++ m.trace ++ v.trace) }) := by
  simp only [updateCanvas, hc, ht, he]

lemma updateCanvas_ok_canvas {props : Props} {prevProps : PrevProps}
    {st : PhotoLayerState} {sched : Scheduler} {canvas : PhotoCanvas} {tc : TextureCache}
    (hc : st.canvas = some canvas) (ht : st.textureCache = some tc)
    (he : tc.getTextureError props.imagePath = none) :
    (updateCanvas props prevProps st sched).state.canvas =
      some (visibilityStep props (stepsCanvas props prevProps tc canvas st.canvasImagePath)
        (updateChanged props prevProps tc canvas st.canvasImagePath)
        st.deferredHideCanvasTimeout st.prevLoadingState sched).canvas := by
  rw [updateCanvas_ok_eq hc ht he]
  exact rfl

lemma updateCanvas_ok_imagePath {props : Props} {prevProps : PrevProps}
    {st : PhotoLayerState} {sched : Scheduler} {canvas : PhotoCanvas} {tc : TextureCache}
    (hc : st.canvas = some canvas) (ht : st.textureCache = some tc)
    (he : tc.getTextureError props.imagePath = none) :
    (updateCanvas props prevProps st sched).state.canvasImagePath =
      (bindTextureStep props tc canvas st.canvasImagePath).canvasImagePath := by
  rw [updateCanvas_ok_eq hc ht he]

lemma updateCanvas_ok_timer {props : Props} {prevProps : PrevProps}
    {st : PhotoLayerState} {sched : Scheduler} {canvas : PhotoCanvas} {tc : TextureCache}
    (hc : st.canvas = some canvas) (ht : st.textureCache = some tc)
    (he : tc.getTextureError props.imagePath = none) :
    (updateCanvas props prevProps st sched).state.deferredHideCanvasTimeout =
      (visibilityStep props (stepsCanvas props prevProps tc canvas st.canvasImagePath)
        (updateChanged props prevProps tc canvas st.canvasImagePath)
        st.deferredHideCanvasTimeout st.prevLoadingState sched).timer := by
  rw [updateCanvas_ok_eq hc ht he]
  exact rfl

lemma updateCanvas_ok_prevLS {props : Props} {prevProps : PrevProps}
    {st : PhotoLayerState} {sched : Scheduler} {canvas : PhotoCanvas} {tc : TextureCache}
    (hc : st.canvas = some canvas) (ht : st.textureCache = some tc)
    (he : tc.getTextureError props.imagePath = none) :
    (updateCanvas props prevProps st sched).state.prevLoadingState =
      (visibilityStep props (stepsCanvas props prevProps tc canvas st.canvasImagePath)
        (updateChanged props prevProps tc canvas st.canvasImagePath)
        st.deferredHideCanvasTimeout st.prevLoadingState sched).prevLoadingState := by
  rw [updateCanvas_ok_eq hc ht he]
  exact rfl

lemma updateCanvas_ok_sched {props : Props} {prevProps : PrevProps}
    {st : PhotoLayerState} {sched : Scheduler} {canvas : PhotoCanvas} {tc : TextureCache}
    (hc : st.canvas = some canvas) (ht : st.textureCache = some tc)
    (he : tc.getTextureError props.imagePath = none) :
    (updateCanvas props prevProps st sched).sched =
      (visibilityStep props (stepsCanvas props prevProps tc canvas st.canvasImagePath)
        (updateChanged props prevProps tc canvas st.canvasImagePath)
        st.deferredHideCanvasTimeout st.prevLoadingState sched).sched := by
  rw [updateCanvas_ok_eq hc ht he]
  exact rfl

lemma updateCanvas_ok_trace {props : Props} {prevProps : PrevProps}
    {st : PhotoLayerState} {sched : Scheduler} {canvas : PhotoCanvas} {tc : TextureCache}
    (hc : st.canvas = some canvas) (ht : st.textureCache = some tc)
    (he : tc.getTextureError props.imagePath = none) :
    (updateCanvas props prevProps st sched).trace =
      Effect.declareInterest [some props.imagePath, props.imagePathNext, props.imagePathPrev]
        :: ((bindTextureStep props tc canvas st.canvasImagePath).trace
          ++ (bodyResizeStep props prevProps
                (bindTextureStep props tc canvas st.canvasImagePath).canvas).2
          ++ (clipRectStep props prevProps
                (bodyResizeStep props prevProps
                  (bindTextureStep props tc canvas st.canvasImagePath).canvas).1).trace
          ++ (cameraMetricsStep props prevProps
                (clipRectStep props prevProps
                  (bodyResizeStep props prevProps
                    (bindTextureStep props tc canvas st.canvasImagePath).canvas).1).canvas).trace
          ++ (visibilityStep props (stepsCanvas props prevProps tc canvas st.canvasImagePath)
                (updateChanged props prevProps tc canvas st.canvasImagePath)
                st.deferredHideCanvasTimeout st.prevLoadingState sched).trace) := by
  rw [updateCanvas_ok_eq hc ht he]
  exact rfl

lemma bodyResizeStep_baseTexture (props : Props) (prevProps : PrevProps) (cv : PhotoCanvas) :
    ((bodyResizeStep props prevProps cv).1).baseTexture = cv.baseTexture := by
  unfold bodyResizeStep
  split <;> rfl

lemma clipRectStep_baseTexture (props : Props) (prevProps : PrevProps) (cv : PhotoCanvas) :
    ((clipRectStep props prevProps cv).canvas).baseTexture = cv.baseTexture := by
  unfold clipRectStep
  split <;> rfl

lemma cameraMetricsStep_baseTexture (props : Props) (prevProps : PrevProps) (cv : PhotoCanvas) :
    ((cameraMetricsStep props prevProps cv).canvas).baseTexture = cv.baseTexture := by
  unfold cameraMetricsStep
  split
  · split <;> rfl
  · rfl

lemma visibilityStep_baseTexture (props : Props) (cv : PhotoCanvas) (changed : Bool)
    (t : Option Nat) (pls : Option PhotoLayerLoadingState) (sc : Scheduler) :
    ((visibilityStep props cv changed t pls sc).canvas).baseTexture = cv.baseTexture := by
  unfold visibilityStep
  split
  · split
    · rfl
    · split <;> rfl
  · rfl

lemma stepsCanvas_baseTexture (props : Props) (prevProps : PrevProps) (tc : TextureCache)
    (cv : PhotoCanvas) (cip : Option String) :
    (stepsCanvas props prevProps tc cv cip).baseTexture =
      (bindTextureStep props tc cv cip).canvas.baseTexture := by
  unfold stepsCanvas
  rw [cameraMetricsStep_baseTexture, clipRectStep_baseTexture, bodyResizeStep_baseTexture]

lemma bindTextureStep_noop {props : Props} {cip : Option String}
    (tc : TextureCache) (cv : PhotoCanvas) (hsame : cip = some props.imagePath) :
    bindTextureStep props tc cv cip = ⟨cv, cip, [], false⟩ := by
  unfold bindTextureStep
  simp [hsame]

lemma bodyResizeStep_resize {props : Props} {prevProps : PrevProps}
    (cv : PhotoCanvas) (hbody : some props.bodySize ≠ prevProps.bodySize) :
    bodyResizeStep props prevProps cv =
      ({ cv with elemWidth := some props.bodySize.width
                 elemHeight := some props.bodySize.height },
       [Effect.resizeElement props.bodySize.width props.bodySize.height]) := by
  unfold bodyResizeStep
  simp [hbody]

lemma clipRectStep_noop {props : Props} {prevProps : PrevProps} (cv : PhotoCanvas)
    (h1 : prevProps.mode = some props.mode)
    (h2 : prevProps.cameraMetrics = some props.cameraMetrics) :
    clipRectStep props prevProps cv = ⟨cv, [], false⟩ := by
  unfold clipRectStep
  simp [h1, h2]

lemma cameraMetricsStep_noop {props : Props} {prevProps : PrevProps} (cv : PhotoCanvas)
    (h2 : prevProps.cameraMetrics = some props.cameraMetrics) :
    cameraMetricsStep props prevProps cv = ⟨cv, [], false⟩ := by
  unfold cameraMetricsStep
  simp [h2]

lemma visibilityStep_noop (props : Props) (cv : PhotoCanvas) (t : Option Nat)
    (pls : Option PhotoLayerLoadingState) (sc : Scheduler) :
    visibilityStep props cv false t pls sc = ⟨cv, t, pls, sc, []⟩ := by
  unfold visibilityStep
  simp

theorem C10_error_branch_keeps_timer_witness :
    tcErr.getTextureError "b" = some TextureError.decodeFailure ∧
    stErrTimer.deferredHideCanvasTimeout = some 7 ∧
    (updateCanvas props0 prevNone stErrTimer schedTimer).state.deferredHideCanvasTimeout =
      some 7 ∧
    (fireDeferredHide (updateCanvas props0 prevNone stErrTimer schedTimer).state
      (updateCanvas props0 prevNone stErrTimer schedTimer).sched 7).state.prevLoadingState =
      some PhotoLayerLoadingState.loading := by
  have h := C10_error_branch_keeps_timer props0 prevNone stErrTimer schedTimer canvas0 tcErr
    TextureError.decodeFailure 7 rfl rfl rfl rfl
  exact ⟨rfl, rfl, h.1, h.2.2.2.2.1⟩

lemma bindTextureStep_of_some {props : Props} {tc : TextureCache} {cv : PhotoCanvas}
    {cip : Option String} {t : Texture}
    (hdiff : cip ≠ some props.imagePath) (htex : tc.getTexture props.imagePath = some t) :
    bindTextureStep props tc cv cip =
      ⟨{ cv with baseTexture := some t }, some props.imagePath,
       [Effect.setBaseTexture (some t), Effect.notifyTextureChange t.width t.height], true⟩ := by
  unfold bindTextureStep
  simp [hdiff, htex]

lemma bindTextureStep_of_none {props : Props} {tc : TextureCache} {cv : PhotoCanvas}
    {cip : Option String}
    (hdiff : cip ≠ some props.imagePath) (htex : tc.getTexture props.imagePath = none) :
    bindTextureStep props tc cv cip =
      ⟨{ cv with baseTexture := none }, none, [Effect.setBaseTexture none], true⟩ := by
  unfold bindTextureStep
  simp [hdiff, htex]

/-- C3: on an update with no error for the current image whose applied key
differs from `imagePath`, the update queries the cache and pushes the result as
the base texture; when a texture is present the applied key becomes `imagePath`
and the texture-size observer is notified with its dimensions, otherwise the
base texture is unbound and the applied key becomes none; in both cases the
canvas is marked changed. -/
theorem C3_rebind_on_path_change (props : Props) (prevProps : PrevProps)
    (st : PhotoLayerState) (sched : Scheduler) (canvas : PhotoCanvas) (tc : TextureCache)
    (hc : st.canvas = some canvas) (ht : st.textureCache = some tc)
    (he : tc.getTextureError props.imagePath = none)
    (hdiff : st.canvasImagePath ≠ some props.imagePath) :
    Effect.setBaseTexture (tc.getTexture props.imagePath) ∈
      (updateCanvas props prevProps st sched).trace
    ∧ (∃ c, (updateCanvas props prevProps st sched).state.canvas = some c ∧
        c.baseTexture = tc.getTexture props.imagePath)
    ∧ (updateCanvas props prevProps st sched).state.canvasImagePath =
        (if (tc.getTexture props.imagePath).isSome then some props.imagePath else none)
    ∧ (∀ t, tc.getTexture props.imagePath = some t →
        Effect.notifyTextureChange t.width t.height ∈
          (updateCanvas props prevProps st sched).trace)
    ∧ updateChanged props prevProps tc canvas st.canvasImagePath = true := by
  refine ⟨?_, ?_, ?_, ?_, ?_⟩
  · rw [updateCanvas_ok_trace hc ht he]
    cases htex : tc.getTexture props.imagePath with
    | some t => rw [bindTextureStep_of_some hdiff htex]; simp
    | none => rw [bindTextureStep_of_none hdiff htex]; simp
  · refine ⟨_, updateCanvas_ok_canvas hc ht he, ?_⟩
    rw [visibilityStep_baseTexture, stepsCanvas_baseTexture]
    cases htex : tc.getTexture props.imagePath with
    | some t => rw [bindTextureStep_of_some hdiff htex]
    | none => rw [bindTextureStep_of_none hdiff htex]
  · rw [updateCanvas_ok_imagePath hc ht he]
    cases htex : tc.getTexture props.imagePath with
    | some t => rw [bindTextureStep_of_some hdiff htex]; simp
    | none => rw [bindTextureStep_of_none hdiff htex]; simp
  · intro t htex
    rw [updateCanvas_ok_trace hc ht he, bindTextureStep_of_some hdiff htex]
    simp
  · unfold updateChanged
    cases htex : tc.getTexture props.imagePath with
    | some t => rw [bindTextureStep_of_some hdiff htex]; simp
    | none => rw [bindTextureStep_of_none hdiff htex]; simp

theorem C3_rebind_on_path_change_witness :
    stBind.canvasImagePath ≠ some props0.imagePath ∧
    tcTex.getTextureError props0.imagePath = none ∧
    Effect.setBaseTexture (tcTex.getTexture props0.imagePath) ∈
      (updateCanvas props0 prevNone stBind sched0).trace ∧
    (updateCanvas props0 prevNone stBind sched0).state.canvasImagePath =
      (if (tcTex.getTexture props0.imagePath).isSome then some props0.imagePath else none) := by
  have h := C3_rebind_on_path_change props0 prevNone stBind sched0 canvas0 tcTex
    rfl rfl rfl (by decide)
  exact ⟨by decide, rfl, h.1, h.2.2.1⟩

/-- The whole result of the visibility block when the canvas changed, camera
metrics are present and the canvas is valid. -/
lemma visibilityStep_show_eq (props : Props) (cv : PhotoCanvas) (t : Option Nat)
    (pls : Option PhotoLayerLoadingState) (sc : Scheduler)
    (h : (props.cameraMetrics.isSome && cv.isValid) = true) :
    visibilityStep props cv true t pls sc =
      { canvas := { cv with updateCount := cv.updateCount + 1, displayVisible := true }
        timer := none
        prevLoadingState := some PhotoLayerLoadingState.done
        sched := match t with | some id => sc.clearTimeout id | none => sc
        trace := (match t with | some id => [Effect.clearDeferredHide id] | none => [])
          ++ [Effect.redraw, Effect.showElement]
          ++ (setLoadingStateField pls PhotoLayerLoadingState.done).2 } := by
  cases t <;> simp [visibilityStep, h, setLoadingStateField_fst]

/-- C4: on an update marked changed with camera metrics present and a valid
canvas, the update drops any pending deferred-hide timer, triggers a redraw,
shows the canvas element and transitions the loading state to `done`. -/
theorem C4_redraw_show_done (props : Props) (prevProps : PrevProps)
    (st : PhotoLayerState) (sched : Scheduler) (canvas : PhotoCanvas) (tc : TextureCache)
    (hc : st.canvas = some canvas) (ht : st.textureCache = some tc)
    (he : tc.getTextureError props.imagePath = none)
    (hch : updateChanged props prevProps tc canvas st.canvasImagePath = true)
    (hcm : props.cameraMetrics.isSome = true)
    (hv : (stepsCanvas props prevProps tc canvas st.canvasImagePath).isValid = true)
    (hinv : sched.pending = st.deferredHideCanvasTimeout.toList) :
    (updateCanvas props prevProps st sched).state.deferredHideCanvasTimeout = none
    ∧ (updateCanvas props prevProps st sched).sched.pending = []
    ∧ Effect.redraw ∈ (updateCanvas props prevProps st sched).trace
    ∧ Effect.showElement ∈ (updateCanvas props prevProps st sched).trace
    ∧ (∃ c, (updateCanvas props prevProps st sched).state.canvas = some c ∧
        c.displayVisible = true ∧
        c.updateCount =
          (stepsCanvas props prevProps tc canvas st.canvasImagePath).updateCount + 1)
    ∧ (updateCanvas props prevProps st sched).state.prevLoadingState =
        some PhotoLayerLoadingState.done := by
  have hb : (props.cameraMetrics.isSome &&
      (stepsCanvas props prevProps tc canvas st.canvasImagePath).isValid) = true := by
    rw [hcm, hv]
    rfl
  refine ⟨?_, ?_, ?_, ?_, ?_, ?_⟩
  · rw [updateCanvas_ok_timer hc ht he, hch, visibilityStep_show_eq _ _ _ _ _ hb]
  · rw [updateCanvas_ok_sched hc ht he, hch, visibilityStep_show_eq _ _ _ _ _ hb]
    cases htm : st.deferredHideCanvasTimeout with
    | none => simp [htm] at hinv; exact hinv
    | some id =>
        simp [htm] at hinv
        simp [Scheduler.clearTimeout, hinv]
  · rw [updateCanvas_ok_trace hc ht he, hch, visibilityStep_show_eq _ _ _ _ _ hb]
    simp
  · rw [updateCanvas_ok_trace hc ht he, hch, visibilityStep_show_eq _ _ _ _ _ hb]
    simp
  · rw [updateCanvas_ok_canvas hc ht he, hch, visibilityStep_show_eq _ _ _ _ _ hb]
    exact ⟨_, rfl, rfl, rfl⟩
  · rw [updateCanvas_ok_prevLS hc ht he, hch, visibilityStep_show_eq _ _ _ _ _ hb]

theorem C4_redraw_show_done_witness :
    updateChanged props0 prevNone tcTex canvas0 stBind.canvasImagePath = true ∧
    (stepsCanvas props0 prevNone tcTex canvas0 stBind.canvasImagePath).isValid = true ∧
    (updateCanvas props0 prevNone stBind sched0).state.prevLoadingState =
      some PhotoLayerLoadingState.done ∧
    Effect.redraw ∈ (updateCanvas props0 prevNone stBind sched0).trace := by
  have h := C4_redraw_show_done props0 prevNone stBind sched0 canvas0 tcTex
    rfl rfl rfl (by decide) rfl (by decide) rfl
  exact ⟨by decide, by decide, h.2.2.2.2.2, h.2.2.1⟩

/-- C8: when only the body size differs from the previous inputs — the applied
key already equals `imagePath`, mode and camera metrics are unchanged and there
is no error — the update only resizes the canvas element's pixel dimensions: no
texture rebind, no changed flag, no redraw, loading state, visibility and timer
untouched. -/
theorem C8_body_resize_only (props : Props) (prevProps : PrevProps)
    (st : PhotoLayerState) (sched : Scheduler) (canvas : PhotoCanvas) (tc : TextureCache)
    (hc : st.canvas = some canvas) (ht : st.textureCache = some tc)
    (he : tc.getTextureError props.imagePath = none)
    (hsame : st.canvasImagePath = some props.imagePath)
    (hmode : prevProps.mode = some props.mode)
    (hcm : prevProps.cameraMetrics = some props.cameraMetrics)
    (hbody : some props.bodySize ≠ prevProps.bodySize) :
    updateCanvas props prevProps st sched =
      { state := { st with canvas := some { canvas with
            elemWidth := some props.bodySize.width
            elemHeight := some props.bodySize.height } }
        sched := sched
        trace := [Effect.declareInterest
            [some props.imagePath, props.imagePathNext, props.imagePathPrev],
          Effect.resizeElement props.bodySize.width props.bodySize.height] } := by
  rw [updateCanvas_ok_eq hc ht he]
  simp only [bindTextureStep_noop tc canvas hsame, bodyResizeStep_resize canvas hbody,
    clipRectStep_noop _ hmode hcm, cameraMetricsStep_noop _ hcm, visibilityStep_noop]
  rfl

theorem C8_body_resize_only_witness :
    stSame.canvasImagePath = some props0.imagePath ∧
    some props0.bodySize ≠ prevC8.bodySize ∧
    updateCanvas props0 prevC8 stSame sched0 =
      { state := { stSame with canvas := some { canvas0 with
            elemWidth := some props0.bodySize.width
            elemHeight := some props0.bodySize.height } }
        sched := sched0
        trace := [Effect.declareInterest [some "b", some "c", some "a"],
          Effect.resizeElement props0.bodySize.width props0.bodySize.height] } := by
  have h := C8_body_resize_only props0 prevC8 stSame sched0 canvas0 tcEmpty
    rfl rfl rfl rfl rfl rfl (by decide)
  exact ⟨rfl, by decide, h⟩

lemma updateCanvas_no_canvas {st : PhotoLayerState} (h : st.canvas = none)
    (props : Props) (prevProps : PrevProps) (sched : Scheduler) :
    updateCanvas props prevProps st sched = ⟨st, sched, []⟩ := by
  unfold updateCanvas
  rw [h]

lemma updateCanvas_no_cache {st : PhotoLayerState} (h : st.textureCache = none)
    (props : Props) (prevProps : PrevProps) (sched : Scheduler) :
    updateCanvas props prevProps st sched = ⟨st, sched, []⟩ := by
  unfold updateCanvas
  rw [h]
  cases st.canvas <;> rfl

lemma componentWillUnmount_canvas (st : PhotoLayerState) :
    (componentWillUnmount st).1.canvas = none := by
  cases h : st.canvas <;> simp [componentWillUnmount, h]

/-- C7: a texture-fetch completion re-runs the full per-update algorithm with
the current props (as both current and previous snapshot); before the re-run it
notifies the texture-size observer with the texture's dimensions exactly when
the completed key equals the current image path and the delivered texture is
non-null; completions for other keys or failed fetches trigger the re-run with
no size notification. -/
theorem C7_fetch_completion_rerun (props : Props) (st : PhotoLayerState)
    (sched : Scheduler) (key : String) (texture : Option Texture) :
    (onTextureFetched props st sched key texture).state =
      (updateCanvas props (prevOfProps props) st sched).state
    ∧ (onTextureFetched props st sched key texture).sched =
      (updateCanvas props (prevOfProps props) st sched).sched
    ∧ ((∃ t, texture = some t ∧ key = props.imagePath ∧
        (onTextureFetched props st sched key texture).trace =
          Effect.notifyTextureChange t.width t.height ::
            (updateCanvas props (prevOfProps props) st sched).trace)
      ∨ ((key ≠ props.imagePath ∨ texture = none) ∧
        (onTextureFetched props st sched key texture).trace =
          (updateCanvas props (prevOfProps props) st sched).trace)) := by
  refine ⟨rfl, rfl, ?_⟩
  by_cases hk : key = props.imagePath
  · cases htex : texture with
    | some t => exact Or.inl ⟨t, rfl, hk, by simp [onTextureFetched, hk]⟩
    | none => exact Or.inr ⟨Or.inr rfl, by simp [onTextureFetched]⟩
  · exact Or.inr ⟨Or.inl hk, by simp [onTextureFetched, hk]⟩

theorem C7_fetch_completion_rerun_witness :
    (onTextureFetched props0 stBind sched0 "b" (some tex0)).state =
      (updateCanvas props0 (prevOfProps props0) stBind sched0).state ∧
    (onTextureFetched props0 stBind sched0 "b" (some tex0)).trace =
      Effect.notifyTextureChange tex0.width tex0.height ::
        (updateCanvas props0 (prevOfProps props0) stBind sched0).trace := by
  have h := C7_fetch_completion_rerun props0 stBind sched0 "b" (some tex0)
  refine ⟨h.1, ?_⟩
  rcases h.2.2 with ⟨t, ht, _, htr⟩ | ⟨hk, _⟩
  · simp only [Option.some.injEq] at ht
    subst ht
    exact htr
  · rcases hk with hk | hk
    · exact absurd rfl hk
    · exact absurd hk (by simp)

/-- C9: teardown clears the canvas reference and detaches the element; any
later run of the per-update algorithm returns immediately (state, scheduler and
trace untouched), and a late texture-fetch completion leaves the state and
scheduler unchanged and can at most emit the observer's size notification —
never an operation on the destroyed canvas. -/
theorem C9_teardown_noop (props : Props) (prevProps : PrevProps) (st : PhotoLayerState)
    (sched : Scheduler) (key : String) (texture : Option Texture) :
    (componentWillUnmount st).1.canvas = none
    ∧ (st.canvas.isSome = true → (componentWillUnmount st).2 = [Effect.detachElement])
    ∧ updateCanvas props prevProps (componentWillUnmount st).1 sched =
        ⟨(componentWillUnmount st).1, sched, []⟩
    ∧ (onTextureFetched props (componentWillUnmount st).1 sched key texture).state =
        (componentWillUnmount st).1
    ∧ (onTextureFetched props (componentWillUnmount st).1 sched key texture).sched = sched
    ∧ (∀ e, e ∈ (onTextureFetched props (componentWillUnmount st).1 sched key texture).trace →
        ∃ w h, e = Effect.notifyTextureChange w h) := by
  have hun := componentWillUnmount_canvas st
  have hupd := updateCanvas_no_canvas hun props prevProps sched
  have hupd' := updateCanvas_no_canvas hun props (prevOfProps props) sched
  refine ⟨hun, ?_, hupd, ?_, ?_, ?_⟩
  · intro h
    rw [Option.isSome_iff_exists] at h
    obtain ⟨c, hcv⟩ := h
    simp [componentWillUnmount, hcv]
  · simp [onTextureFetched, hupd']
  · simp [onTextureFetched, hupd']
  · intro e he
    simp only [onTextureFetched, hupd'] at he
    simp only [List.append_nil] at he
    split at he
    · cases texture with
      | some t =>
          simp only [List.mem_singleton] at he
          exact ⟨t.width, t.height, he⟩
      | none => simp at he
    · simp at he

theorem C9_teardown_noop_witness :
    st0.canvas.isSome = true ∧
    (componentWillUnmount st0).2 = [Effect.detachElement] ∧
    updateCanvas props0 prevNone (componentWillUnmount st0).1 sched0 =
      ⟨(componentWillUnmount st0).1, sched0, []⟩ := by
  have h := C9_teardown_noop props0 prevNone st0 sched0 "b" (some tex0)
  exact ⟨rfl, h.2.1 rfl, h.2.2.1⟩

lemma visibilityStep_inv {props : Props} {cv : PhotoCanvas} {changed : Bool}
    {t : Option Nat} {pls : Option PhotoLayerLoadingState} {sc : Scheduler}
    (hinv : sc.pending = t.toList) :
    (visibilityStep props cv changed t pls sc).sched.pending =
      (visibilityStep props cv changed t pls sc).timer.toList := by
  unfold visibilityStep
  split
  · split
    · cases t with
      | none => simp_all
      | some id =>
          simp_all [Scheduler.clearTimeout]
    · split
      · rename_i hnone
        rw [Option.isNone_iff_eq_none] at hnone
        subst hnone
        simp only [Option.toList] at hinv
        simp [Scheduler.setTimeout, hinv]
      · simpa using hinv
  · simpa using hinv

/-- The deferred-hide-timer invariant — the pending-timer set is exactly the
orchestrator's stored timer handle — is preserved by every update. -/
lemma updateCanvas_inv (props : Props) (prevProps : PrevProps) (st : PhotoLayerState)
    (sched : Scheduler)
    (hinv : sched.pending = st.deferredHideCanvasTimeout.toList) :
    (updateCanvas props prevProps st sched).sched.pending =
      (updateCanvas props prevProps st sched).state.deferredHideCanvasTimeout.toList := by
  cases hc : st.canvas with
  | none => rw [updateCanvas_no_canvas hc]; exact hinv
  | some canvas =>
    cases ht : st.textureCache with
    | none => rw [updateCanvas_no_cache ht]; exact hinv
    | some tc =>
      cases herr : tc.getTextureError props.imagePath with
      | some err =>
          rw [updateCanvas_error_eq hc ht herr]
          exact hinv
      | none =>
          rw [updateCanvas_ok_sched hc ht herr, updateCanvas_ok_timer hc ht herr]
          exact visibilityStep_inv hinv

lemma bindTextureStep_no_start {props : Props} {tc : TextureCache} {cv : PhotoCanvas}
    {cip : Option String} {id d : Nat} :
    Effect.startDeferredHide id d ∉ (bindTextureStep props tc cv cip).trace := by
  unfold bindTextureStep
  split
  · split <;> simp
  · simp

lemma bodyResizeStep_no_start {props : Props} {prevProps : PrevProps} {cv : PhotoCanvas}
    {id d : Nat} :
    Effect.startDeferredHide id d ∉ (bodyResizeStep props prevProps cv).2 := by
  unfold bodyResizeStep
  split <;> simp

lemma clipRectStep_no_start {props : Props} {prevProps : PrevProps} {cv : PhotoCanvas}
    {id d : Nat} :
    Effect.startDeferredHide id d ∉ (clipRectStep props prevProps cv).trace := by
  unfold clipRectStep
  split <;> simp

lemma cameraMetricsStep_no_start {props : Props} {prevProps : PrevProps} {cv : PhotoCanvas}
    {id d : Nat} :
    Effect.startDeferredHide id d ∉ (cameraMetricsStep props prevProps cv).trace := by
  unfold cameraMetricsStep
  split
  · split <;> simp
  · simp

/-- A start-timer effect can only come out of the visibility block's
start branch: the canvas changed, the show condition failed, no timer was
pending, and the delay is the source's 100ms. -/
lemma visibilityStep_start_mem {props : Props} {cv : PhotoCanvas} {changed : Bool}
    {t : Option Nat} {pls : Option PhotoLayerLoadingState} {sc : Scheduler} {id d : Nat}
    (h : Effect.startDeferredHide id d ∈ (visibilityStep props cv changed t pls sc).trace) :
    changed = true ∧ (props.cameraMetrics.isSome && cv.isValid) = false
    ∧ t = none ∧ d = 100 := by
  unfold visibilityStep at h
  split at h
  · rename_i hch
    split at h
    · rename_i hvalid
      exfalso
      rcases List.mem_append.mp h with h1 | h1
      · rcases List.mem_append.mp h1 with h2 | h2
        · cases t <;> simp at h2
        · simp at h2
      · exact absurd (mem_setLoadingStateField_trace h1) (by simp)
    · split at h
      · rename_i hvalid hnone
        simp only [List.mem_singleton, Effect.startDeferredHide.injEq] at h
        rw [Option.isNone_iff_eq_none] at hnone
        exact ⟨hch, by simpa using hvalid, hnone, h.2⟩
      · simp at h
  · simp at h

/-- A start-timer effect of a whole update pins down the no-error branch with
the changed flag set, a failing show condition and no previously pending
timer. -/
lemma updateCanvas_start_mem {props : Props} {prevProps : PrevProps}
    {st : PhotoLayerState} {sched : Scheduler} {id d : Nat}
    (h : Effect.startDeferredHide id d ∈ (updateCanvas props prevProps st sched).trace) :
    st.deferredHideCanvasTimeout = none ∧ d = 100 ∧
    ∃ canvas tc, st.canvas = some canvas ∧ st.textureCache = some tc ∧
      tc.getTextureError props.imagePath = none ∧
      updateChanged props prevProps tc canvas st.canvasImagePath = true ∧
      (props.cameraMetrics.isSome &&
        (stepsCanvas props prevProps tc canvas st.canvasImagePath).isValid) = false := by
  cases hc : st.canvas with
  | none => rw [updateCanvas_no_canvas hc] at h; simp at h
  | some canvas =>
    cases ht : st.textureCache with
    | none => rw [updateCanvas_no_cache ht] at h; simp at h
    | some tc =>
      cases herr : tc.getTextureError props.imagePath with
      | some err =>
          exfalso
          rw [updateCanvas_error_eq hc ht herr] at h
          simp only [List.mem_cons] at h
          rcases h with h | h | h
          · simp at h
          · simp at h
          · exact absurd (mem_setLoadingStateField_trace h) (by simp)
      | none =>
          rw [updateCanvas_ok_trace hc ht herr] at h
          rcases List.mem_cons.mp h with h | h
          · simp at h
          · rcases List.mem_append.mp h with h | h
            · rcases List.mem_append.mp h with h | h
              · rcases List.mem_append.mp h with h | h
                · rcases List.mem_append.mp h with h | h
                  · exact absurd h bindTextureStep_no_start
                  · exact absurd h bodyResizeStep_no_start
                · exact absurd h clipRectStep_no_start
              · exact absurd h cameraMetricsStep_no_start
            · have hres := visibilityStep_start_mem h
              exact ⟨hres.2.2.1, hres.2.2.2,
                canvas, tc, rfl, rfl, herr, hres.1, hres.2.1⟩

/-- Behavior of the deferred-hide callback when the stored handle fires. -/
lemma fireDeferredHide_spec (st : PhotoLayerState) (sched : Scheduler) (id : Nat)
    (hid : st.deferredHideCanvasTimeout = some id)
    (hinv : sched.pending = st.deferredHideCanvasTimeout.toList) :
    (fireDeferredHide st sched id).state.deferredHideCanvasTimeout = none
    ∧ (fireDeferredHide st sched id).sched.pending = []
    ∧ (fireDeferredHide st sched id).state.prevLoadingState =
        some PhotoLayerLoadingState.loading
    ∧ Effect.hideElement ∈ (fireDeferredHide st sched id).trace
    ∧ (∀ c, st.canvas = some c →
        (fireDeferredHide st sched id).state.canvas =
          some { c with displayVisible := false }) := by
  refine ⟨rfl, ?_, ?_, ?_, ?_⟩
  · rw [hid] at hinv
    simp only [Option.toList] at hinv
    simp [fireDeferredHide, hinv]
  · simp [fireDeferredHide, setLoadingStateField_fst]
  · simp [fireDeferredHide]
  · intro c hcv
    simp [fireDeferredHide, hcv]

/-- C5: under the invariant that the pending-timer set mirrors the stored
handle, at most one deferred-hide timer is ever pending (the invariant is
preserved by every update and the pending set has at most one element); a new
timer (with the 100ms delay) is started only when the canvas changed, the show
condition failed and no timer was pending; on firing the timer clears itself,
hides the canvas element and transitions the loading state to `loading`; and
cancelling a timer that is not pending is a no-op. -/
theorem C5_single_deferred_hide_timer (props : Props) (prevProps : PrevProps)
    (st : PhotoLayerState) (sched : Scheduler)
    (hinv : sched.pending = st.deferredHideCanvasTimeout.toList) :
    ((updateCanvas props prevProps st sched).sched.pending =
        (updateCanvas props prevProps st sched).state.deferredHideCanvasTimeout.toList
      ∧ (updateCanvas props prevProps st sched).sched.pending.length ≤ 1)
    ∧ (∀ id d, Effect.startDeferredHide id d ∈ (updateCanvas props prevProps st sched).trace →
        st.deferredHideCanvasTimeout = none ∧ d = 100 ∧
        ∃ canvas tc, st.canvas = some canvas ∧ st.textureCache = some tc ∧
          tc.getTextureError props.imagePath = none ∧
          updateChanged props prevProps tc canvas st.canvasImagePath = true ∧
          (props.cameraMetrics.isSome &&
            (stepsCanvas props prevProps tc canvas st.canvasImagePath).isValid) = false)
    ∧ (∀ id, st.deferredHideCanvasTimeout = some id →
        (fireDeferredHide st sched id).state.deferredHideCanvasTimeout = none
        ∧ (fireDeferredHide st sched id).sched.pending = []
        ∧ (fireDeferredHide st sched id).state.prevLoadingState =
            some PhotoLayerLoadingState.loading
        ∧ Effect.hideElement ∈ (fireDeferredHide st sched id).trace
        ∧ (∀ c, st.canvas = some c →
            (fireDeferredHide st sched id).state.canvas =
              some { c with displayVisible := false }))
    ∧ (∀ id, id ∉ sched.pending → sched.clearTimeout id = sched) := by
  refine ⟨⟨updateCanvas_inv props prevProps st sched hinv, ?_⟩, ?_, ?_, ?_⟩
  · rw [updateCanvas_inv props prevProps st sched hinv]
    cases (updateCanvas props prevProps st sched).state.deferredHideCanvasTimeout <;> simp
  · intro id d h
    exact updateCanvas_start_mem h
  · intro id hid
    exact fireDeferredHide_spec st sched id hid hinv
  · intro id hnm
    unfold Scheduler.clearTimeout
    have hfil : sched.pending.filter (fun x => x ≠ id) = sched.pending := by
      apply List.filter_eq_self.mpr
      intro a ha
      simp only [ne_eq, decide_not, Bool.not_eq_true', decide_eq_false_iff_not]
      intro hEq
      exact hnm (hEq ▸ ha)
    rw [hfil]

theorem C5_single_deferred_hide_timer_witness :
    schedTimer.pending = stTimer.deferredHideCanvasTimeout.toList ∧
    (updateCanvas props0 prevNone stTimer schedTimer).sched.pending.length ≤ 1 ∧
    (fireDeferredHide stTimer schedTimer 7).state.prevLoadingState =
      some PhotoLayerLoadingState.loading ∧
    schedTimer.clearTimeout 9 = schedTimer := by
  have h := C5_single_deferred_hide_timer props0 prevNone stTimer schedTimer rfl
  exact ⟨rfl, h.1.2, (h.2.2.1 7 rfl).2.2.1, h.2.2.2 9 (by decide)⟩

end Picturama
